import Mathlib

/-!
Shallow embedding of the maturity scoring engine
(src/lambda-functions/calculate_score.py and
src/lambda-functions/get_metric_details.py).

Numeric values are modelled over the rationals: the engine performs only
addition, multiplication, division and a decimal half-even rounding, so ℚ
is an exact model of the intended real-number semantics.  Python dicts that
are iterated in insertion order are modelled as association lists kept in
insertion order; the statistics response dict is modelled literally as a
list of key/value pairs so that presence and absence of keys is visible.
-/

/-- The level table of `MaturityCalculator.MATURITY_LEVELS`
(calculate_score.py lines 44-49): pairs of (min_score, max_score) tagged
with the level name, in insertion order. -/
def MATURITY_LEVELS : List ((ℚ × ℚ) × String) :=
  [((0, 3/2), "INITIAL"),
   ((3/2, 5/2), "MANAGED"),
   ((5/2, 7/2), "DEFINED"),
   ((7/2, 5), "OPTIMIZING")]

/-- The lookup loop of `get_maturity_level`: return the level of the first
interval with `min_score <= score < max_score`, else nothing. -/
def lookupLevel : List ((ℚ × ℚ) × String) → ℚ → Option String
  | [], _ => none
  | (bounds, level) :: rest, score =>
      if bounds.1 ≤ score ∧ score < bounds.2 then some level
      else lookupLevel rest score

/-- Embedding of `MaturityCalculator.get_maturity_level` (calculate_score.py lines
51-57): first matching half-open interval, defaulting to OPTIMIZING. -/
def get_maturity_level (score : ℚ) : String :=
  (lookupLevel MATURITY_LEVELS score).getD "OPTIMIZING"

/-- Embedding of `MaturityCalculator.calculate_metric_score` (calculate_score.py lines
59-65): returns `float(metric_level)`; the `metric_value` argument is not
used. -/
def calculate_metric_score (metric_value : ℚ) (metric_level : ℤ) : ℚ :=
  (metric_level : ℚ)

/-- One entry of the per-topic `metrics` list as built in `calculate_scores`
(calculate_score.py lines 213-218). -/
structure MetricEntry where
  id : String
  name : String
  score : ℚ
  weight : ℚ
deriving Repr, DecidableEq

/-- A score/weight pair as consumed by `calculate_pillar_score`. -/
structure WeightedScore where
  score : ℚ
  weight : ℚ
deriving Repr, DecidableEq

/-- Embedding of `MaturityCalculator.calculate_topic_score` (calculate_score.py lines
67-74): 0.0 on the empty list, otherwise the plain mean of the `score`
fields. -/
def calculate_topic_score (metric_scores : List MetricEntry) : ℚ :=
  if metric_scores = [] then 0
  else ((metric_scores.map MetricEntry.score).sum) / (metric_scores.length : ℚ)

/-- Embedding of `MaturityCalculator.calculate_pillar_score` (calculate_score.py lines
76-85): 0.0 on the empty list, otherwise the weighted mean guarded by
`total_weight > 0`. -/
def calculate_pillar_score (topic_scores : List WeightedScore) : ℚ :=
  if topic_scores = [] then 0
  else
    let weighted_sum := (topic_scores.map (fun t => t.score * t.weight)).sum
    let total_weight := (topic_scores.map WeightedScore.weight).sum
    if 0 < total_weight then weighted_sum / total_weight else 0

/-- Python `round` on rationals: round half to even,
the documented behaviour of `round`. -/
def pythonRound (x : ℚ) : ℤ :=
  let f : ℤ := ⌊x⌋
  let r : ℚ := x - (f : ℚ)
  if r < 1/2 then f
  else if 1/2 < r then f + 1
  else if f % 2 = 0 then f else f + 1

/-- Python `round(x, 2)`. -/
def round2 (x : ℚ) : ℚ := (pythonRound (x * 100) : ℚ) / 100

/-- Python `round(x, 1)`. -/
def round1 (x : ℚ) : ℚ := (pythonRound (x * 10) : ℚ) / 10

/-- One row of the join returned by `get_assessment_results`
(calculate_score.py lines 99-156). -/
structure AssessmentResult where
  id : String
  metric_id : String
  value : ℚ
  metric_name : String
  metric_level : ℤ
  metric_weight : ℚ
  topic_id : String
  topic_name : String
  topic_weight : ℚ
  pillar_id : String
  pillar_name : String
  pillar_weight : ℚ
deriving Repr, DecidableEq

/-- A topic bucket of the `pillar_data` grouping (calculate_score.py
lines 199-205); `metrics` is kept in append order. -/
structure TopicData where
  id : String
  name : String
  weight : ℚ
  metrics : List MetricEntry
deriving Repr, DecidableEq

/-- A pillar bucket of the `pillar_data` grouping (calculate_score.py
lines 190-196); `topics` is kept in insertion order. -/
structure PillarData where
  id : String
  name : String
  weight : ℚ
  topics : List TopicData
deriving Repr, DecidableEq

/-- Append the metric entry of one result (scored by `calculate_metric_score`)
to its topic bucket (calculate_score.py lines 207-218). -/
def addMetricToTopic (t : TopicData) (r : AssessmentResult) : TopicData :=
  { t with metrics := t.metrics ++
      [{ id := r.metric_id, name := r.metric_name,
         score := calculate_metric_score r.value r.metric_level,
         weight := r.metric_weight }] }

/-- Insert one result into the topic association list of a pillar,
creating the topic bucket on first sight (calculate_score.py lines
199-205). -/
def addResultToTopics : List TopicData → AssessmentResult → List TopicData
  | [], r =>
      [addMetricToTopic
        { id := r.topic_id, name := r.topic_name, weight := r.topic_weight,
          metrics := [] } r]
  | t :: rest, r =>
      if t.id = r.topic_id then addMetricToTopic t r :: rest
      else t :: addResultToTopics rest r

/-- Insert one result into the pillar association list, creating the
pillar bucket on first sight (calculate_score.py lines 190-196). -/
def addResultToPillars : List PillarData → AssessmentResult → List PillarData
  | [], r =>
      [{ id := r.pillar_id, name := r.pillar_name, weight := r.pillar_weight,
         topics := addResultToTopics [] r }]
  | p :: rest, r =>
      if p.id = r.pillar_id then
        { p with topics := addResultToTopics p.topics r } :: rest
      else p :: addResultToPillars rest r

/-- The pillar → topic → metric grouping loop of `calculate_scores`
(calculate_score.py lines 183-218). -/
def groupResults (results : List AssessmentResult) : List PillarData :=
  results.foldl addResultToPillars []

/-- One entry of the `topic_scores` response list (calculate_score.py
lines 225-231): the displayed score is rounded to 2 decimals. -/
structure TopicScoreEntry where
  id : String
  name : String
  score : ℚ
  weight : ℚ
  metric_count : ℕ
deriving Repr, DecidableEq

/-- One entry of the `pillar_scores` list (calculate_score.py lines
242-248): its `score` field is `round(pillar_score, 2)`. -/
structure PillarScoreEntry where
  id : String
  name : String
  score : ℚ
  weight : ℚ
  topic_count : ℕ
deriving Repr, DecidableEq

/-- The `topic_scores` loop of `calculate_scores` (calculate_score.py
lines 220-232), in pillar-then-topic insertion order. -/
def topicScoresOf (pillars : List PillarData) : List TopicScoreEntry :=
  pillars.flatMap (fun p => p.topics.map (fun t =>
    { id := t.id, name := t.name,
      score := round2 (calculate_topic_score t.metrics),
      weight := t.weight, metric_count := t.metrics.length }))

/-- The `pillar_scores` loop of `calculate_scores` (calculate_score.py
lines 234-248): each pillar score is the weighted mean of its unrounded
topic scores, then rounded to 2 decimals in the entry. -/
def pillarScoresOf (pillars : List PillarData) : List PillarScoreEntry :=
  pillars.map (fun p =>
    let topics_list : List WeightedScore :=
      p.topics.map (fun t => ⟨calculate_topic_score t.metrics, t.weight⟩)
    { id := p.id, name := p.name,
      score := round2 (calculate_pillar_score topics_list),
      weight := p.weight, topic_count := p.topics.length })

/-- Embedding of `MaturityCalculator.calculate_overall_score` (calculate_score.py
lines 87-96), applied by `calculate_scores` to the `pillar_scores`
entries, whose `score` fields are already rounded. -/
def calculate_overall_score (pillar_scores : List PillarScoreEntry) : ℚ :=
  if pillar_scores = [] then 0
  else
    let weighted_sum := (pillar_scores.map (fun p => p.score * p.weight)).sum
    let total_weight := (pillar_scores.map PillarScoreEntry.weight).sum
    if 0 < total_weight then weighted_sum / total_weight else 0

/-- The `completion_percentage` expression of `calculate_scores`
(calculate_score.py line 268). -/
def completionPercentageOf (total_metrics answered_metrics : ℕ) : ℚ :=
  if 0 < total_metrics then (answered_metrics : ℚ) / (total_metrics : ℚ) * 100
  else 0

/-- The `statistics` response dict of `calculate_scores`
(calculate_score.py lines 276-280), modelled literally as an ordered
key/value list. -/
def statisticsDict (total_metrics answered_metrics : ℕ) : List (String × ℚ) :=
  [("total_metrics", (total_metrics : ℚ)),
   ("answered_metrics", (answered_metrics : ℚ)),
   ("completion_percentage",
     round1 (completionPercentageOf total_metrics answered_metrics))]

/-- The response dict of `calculate_scores` (calculate_score.py lines
270-283; the empty-session variant is lines 165-178). -/
structure ScoreReport where
  session_id : String
  overall_score : ℚ
  maturity_level : String
  pillar_scores : List PillarScoreEntry
  topic_scores : List TopicScoreEntry
  statistics : List (String × ℚ)
deriving Repr, DecidableEq

/-- Embedding of `calculate_scores` (calculate_score.py lines 159-283).  The database
reads are made explicit: `results` is the join loaded by
`get_assessment_results` and `total_metrics` the active-metric count of
the COUNT query.  The empty branch returns the literal dict of lines
165-178 (its statistics ignore the stored total); otherwise scores are
grouped and aggregated, the maturity level is taken from the unrounded
overall score, and the displayed overall score is rounded to 2 decimals. -/
def calculate_scores (session_id : String) (results : List AssessmentResult)
    (total_metrics : ℕ) : ScoreReport :=
  if results = [] then
    { session_id := session_id, overall_score := 0,
      maturity_level := "INITIAL", pillar_scores := [], topic_scores := [],
      statistics :=
        [("total_metrics", 0), ("answered_metrics", 0),
         ("completion_percentage", 0)] }
  else
    let pillar_data := groupResults results
    let topic_scores := topicScoresOf pillar_data
    let pillar_scores := pillarScoresOf pillar_data
    let overall_score := calculate_overall_score pillar_scores
    let maturity_level := get_maturity_level overall_score
    { session_id := session_id, overall_score := round2 overall_score,
      maturity_level := maturity_level, pillar_scores := pillar_scores,
      topic_scores := topic_scores,
      statistics := statisticsDict total_metrics results.length }

/-- A name/value entry of the `parameters` list of the Bedrock event. -/
structure EventParam where
  name : String
  value : String
deriving Repr, DecidableEq

/-- The sessionId extraction loop of `lambda_handler` (calculate_score.py
lines 296-301): the value of the first parameter named sessionId. -/
def extractSessionId : List EventParam → Option String
  | [] => none
  | p :: rest =>
      if p.name = "sessionId" then some p.value else extractSessionId rest

/-- The calculation path of `lambda_handler` (calculate_score.py lines
295-307): extract the sessionId — no other parameter of the event is
read — and run `calculate_scores` on it; a missing sessionId raises,
modelled as `none`.  `db` is the persisted answer store keyed by session
and `total_metrics` the active-metric count. -/
def handlerCalculate (params : List EventParam)
    (db : String → List AssessmentResult) (total_metrics : ℕ) :
    Option ScoreReport :=
  match extractSessionId params with
  | none => none
  | some session_id =>
      some (calculate_scores session_id (db session_id) total_metrics)

/-- The weighted mean rule as worded in the spec, with the zero-weight
guard: the comparison definition for the overall-score refinement claim. -/
def spec_weighted_mean (pairs : List WeightedScore) : ℚ :=
  if 0 < (pairs.map WeightedScore.weight).sum then
    ((pairs.map (fun x => x.score * x.weight)).sum) /
      ((pairs.map WeightedScore.weight).sum)
  else 0

/-- The unrounded score of one pillar bucket: the weighted mean of its
unrounded topic scores, exactly as fed to `round` inside
`pillarScoresOf`. -/
def unroundedPillarScore (p : PillarData) : ℚ :=
  calculate_pillar_score
    (p.topics.map (fun t => ⟨calculate_topic_score t.metrics, t.weight⟩))

/-- The overall score as worded in the spec: the weighted mean applied to
the UNROUNDED pillar scores. -/
def spec_overall (pillars : List PillarData) : ℚ :=
  spec_weighted_mean (pillars.map (fun p => ⟨unroundedPillarScore p, p.weight⟩))

/-- One row of the metric/topic/pillar join of `get_metric_details`
(get_metric_details.py lines 46-68), together with the `active` flag the
query filters on. -/
structure MetricRecord where
  id : String
  name : String
  description : String
  level : ℤ
  metric_type : String
  min_value : ℚ
  max_value : ℚ
  weight : ℚ
  tags : List String
  active : Bool
  topic_id : String
  topic_name : String
  topic_description : String
  pillar_id : String
  pillar_name : String
  pillar_description : String
  category : String
deriving Repr, DecidableEq

/-- The `metric` part of the metric-details response
(get_metric_details.py lines 91-101). -/
structure MetricInfo where
  id : String
  name : String
  description : String
  level : ℤ
  type : String
  minValue : ℚ
  maxValue : ℚ
  weight : ℚ
  tags : List String
deriving Repr, DecidableEq

/-- The `topic` part of the metric-details response
(get_metric_details.py lines 102-106). -/
structure TopicInfo where
  id : String
  name : String
  description : String
deriving Repr, DecidableEq

/-- The `pillar` part of the metric-details response
(get_metric_details.py lines 107-112). -/
structure PillarInfo where
  id : String
  name : String
  description : String
  category : String
deriving Repr, DecidableEq

/-- The full found-metric response including the `guidance` strings
(get_metric_details.py lines 90-126). -/
structure MetricDetails where
  metric : MetricInfo
  topic : TopicInfo
  pillar : PillarInfo
  criteria_available : String
  best_practices_source : String
  recommendation : String
deriving Repr, DecidableEq

/-- Result of `get_metric_details`: either the details dict, or the
error dict (error message plus metric id) returned when no record matches
(get_metric_details.py lines 81-85). -/
inductive GetMetricResult where
  | notFound (error : String) (metric_id : String)
  | ok (data : MetricDetails)
deriving Repr, DecidableEq

/-- Embedding of `get_metric_details` (get_metric_details.py lines 35-128): look up
the first active metric with the requested id; absent a match, return the
not-found dict echoing the requested id. -/
def get_metric_details (db : List MetricRecord) (metric_id : String) :
    GetMetricResult :=
  match db.find? (fun m => m.id == metric_id && m.active) with
  | none => .notFound ("Metric not found: " ++ metric_id) metric_id
  | some m =>
      .ok { metric :=
              { id := metric_id, name := m.name, description := m.description,
                level := m.level, type := m.metric_type,
                minValue := m.min_value, maxValue := m.max_value,
                weight := m.weight, tags := m.tags },
            topic :=
              { id := m.topic_id, name := m.topic_name,
                description := m.topic_description },
            pillar :=
              { id := m.pillar_id, name := m.pillar_name,
                description := m.pillar_description, category := m.category },
            criteria_available :=
              "Check Knowledge Base for " ++ m.name ++ " criteria",
            best_practices_source := "YAML configuration in Knowledge Base",
            recommendation :=
              "Focus on Level " ++ toString m.level ++ " requirements" }

/-- The status code chosen by `lambda_handler` (get_metric_details.py
line 185): 404 exactly when the result dict carries an error key. -/
def metricDetailsStatus : GetMetricResult → ℕ
  | .notFound _ _ => 404
  | .ok _ => 200

/-- The single answered row used to exhibit the metric-scorer divergence:
the recorded answer value is 4 while the declared level column of the metric
is 2. -/
def C1row : AssessmentResult :=
  { id := "r1", metric_id := "m1", value := 4, metric_name := "M1",
    metric_level := 2, metric_weight := 1, topic_id := "t1",
    topic_name := "T1", topic_weight := 1, pillar_id := "p1",
    pillar_name := "P1", pillar_weight := 1 }

/-- Three answered rows in one topic of one pillar with declared metric
levels 1, 1 and 2, giving the non-terminating decimal topic mean 4/3. -/
def C3rows : List AssessmentResult :=
  [{ id := "r1", metric_id := "m1", value := 1, metric_name := "M1",
     metric_level := 1, metric_weight := 1, topic_id := "t1",
     topic_name := "T1", topic_weight := 1, pillar_id := "p1",
     pillar_name := "P1", pillar_weight := 1 },
   { id := "r2", metric_id := "m2", value := 1, metric_name := "M2",
     metric_level := 1, metric_weight := 1, topic_id := "t1",
     topic_name := "T1", topic_weight := 1, pillar_id := "p1",
     pillar_name := "P1", pillar_weight := 1 },
   { id := "r3", metric_id := "m3", value := 2, metric_name := "M3",
     metric_level := 2, metric_weight := 1, topic_id := "t1",
     topic_name := "T1", topic_weight := 1, pillar_id := "p1",
     pillar_name := "P1", pillar_weight := 1 }]

/-- Five answered rows (distinct metrics in one topic) used for the
statistics counterexample with 20 active metrics. -/
def C4rows : List AssessmentResult :=
  [{ C1row with id := "r1", metric_id := "m1" },
   { C1row with id := "r2", metric_id := "m2" },
   { C1row with id := "r3", metric_id := "m3" },
   { C1row with id := "r4", metric_id := "m4" },
   { C1row with id := "r5", metric_id := "m5" }]

/-- A store holding one metric record whose id is m1 but which is
inactive, so that the lookup of m1 matches no stored active metric. -/
def C9db : List MetricRecord :=
  [{ id := "m1", name := "M1", description := "", level := 1,
     metric_type := "scale", min_value := 1, max_value := 5, weight := 1,
     tags := [], active := false, topic_id := "t1", topic_name := "T1",
     topic_description := "", pillar_id := "p1", pillar_name := "P1",
     pillar_description := "", category := "c" }]

/-- The floor-based closed form of `pythonRound` when the fractional part
lies strictly below one half. -/
theorem pythonRound_eq_of (x : ℚ) (n : ℤ) (h1 : (n : ℚ) ≤ x)
    (h2 : x - (n : ℚ) < 1/2) : pythonRound x = n := by
  have hf : ⌊x⌋ = n := by
    rw [Int.floor_eq_iff]
    exact ⟨h1, by linarith⟩
  simp only [pythonRound, hf]
  rw [if_pos h2]

/-- Evaluation rule for `round2` away from ties. -/
theorem round2_eq_of (x : ℚ) (n : ℤ) (h1 : (n : ℚ) ≤ x * 100)
    (h2 : x * 100 - (n : ℚ) < 1/2) : round2 x = (n : ℚ) / 100 := by
  unfold round2
  rw [pythonRound_eq_of (x * 100) n h1 h2]

/-- Evaluation rule for `round1` away from ties. -/
theorem round1_eq_of (x : ℚ) (n : ℤ) (h1 : (n : ℚ) ≤ x * 10)
    (h2 : x * 10 - (n : ℚ) < 1/2) : round1 x = (n : ℚ) / 10 := by
  unfold round1
  rw [pythonRound_eq_of (x * 10) n h1 h2]

/-- Closed form of the interval scan of `get_maturity_level`. -/
theorem get_maturity_level_eq (s : ℚ) :
    get_maturity_level s =
      if 0 ≤ s ∧ s < 3/2 then "INITIAL"
      else if 3/2 ≤ s ∧ s < 5/2 then "MANAGED"
      else if 5/2 ≤ s ∧ s < 7/2 then "DEFINED"
      else if 7/2 ≤ s ∧ s < 5 then "OPTIMIZING"
      else "OPTIMIZING" := by
  simp only [get_maturity_level, MATURITY_LEVELS, lookupLevel]
  split_ifs <;> simp_all

/-- Appending a parameter named answers to the event leaves the sessionId
extraction of the handler unchanged. -/
theorem extractSessionId_append_answers (params : List EventParam) (v : String) :
    extractSessionId (params ++ [⟨"answers", v⟩]) = extractSessionId params := by
  induction params with
  | nil => simp [extractSessionId]
  | cons p rest ih =>
      by_cases h : p.name = "sessionId" <;> simp [extractSessionId, h, ih]

/-- Claim C1: the metric scorer is claimed to propagate the recorded
answer value unchanged with the declared level only carried as metadata;
the code instead returns the float of the declared level column and drops
the answer value.  At answer value 4 with declared level 2 the score is 2,
not 4, in general the scorer returns the cast level, and a session whose
single answer has value 4 on a level-2 metric reports overall score 2. -/
theorem C1_metric_score_is_declared_level :
    calculate_metric_score 4 2 = 2 ∧
    calculate_metric_score 4 2 ≠ 4 ∧
    (∀ (value : ℚ) (level : ℤ),
      calculate_metric_score value level = (level : ℚ)) ∧
    (calculate_scores "s" [C1row] 1).overall_score = 2 := by
  refine ⟨by norm_num [calculate_metric_score],
    by norm_num [calculate_metric_score], fun v l => rfl, ?_⟩
  have hg : groupResults [C1row] =
      [{ id := "p1", name := "P1", weight := 1,
         topics := [{ id := "t1", name := "T1", weight := 1,
                      metrics := [{ id := "m1", name := "M1",
                                    score := ((2 : ℤ) : ℚ),
                                    weight := 1 }] }] }] := rfl
  have hr2 : round2 2 = 2 := by
    rw [round2_eq_of 2 200 (by norm_num) (by norm_num)]
    norm_num
  simp only [calculate_scores, hg]
  norm_num [pillarScoresOf, calculate_pillar_score, calculate_topic_score,
    calculate_overall_score, hr2]

/-- Claim C2: the classifier returns INITIAL on scores in [0, 1.5),
MANAGED on [1.5, 2.5), DEFINED on [2.5, 3.5), OPTIMIZING on [3.5, 5] and
on every input at least 5, and in particular at the boundary points 0,
1.5, 2.5 and 5. -/
theorem C2_maturity_level_intervals (s : ℚ) :
    (0 ≤ s → s < 3/2 → get_maturity_level s = "INITIAL") ∧
    (3/2 ≤ s → s < 5/2 → get_maturity_level s = "MANAGED") ∧
    (5/2 ≤ s → s < 7/2 → get_maturity_level s = "DEFINED") ∧
    (7/2 ≤ s → s ≤ 5 → get_maturity_level s = "OPTIMIZING") ∧
    (5 ≤ s → get_maturity_level s = "OPTIMIZING") ∧
    get_maturity_level 0 = "INITIAL" ∧
    get_maturity_level (3/2) = "MANAGED" ∧
    get_maturity_level (5/2) = "DEFINED" ∧
    get_maturity_level 5 = "OPTIMIZING" := by
  refine ⟨?_, ?_, ?_, ?_, ?_, ?_, ?_, ?_, ?_⟩
  · intro h0 h1
    rw [get_maturity_level_eq, if_pos ⟨h0, h1⟩]
  · intro h0 h1
    rw [get_maturity_level_eq, if_neg (by rintro ⟨_, h⟩; linarith),
        if_pos ⟨h0, h1⟩]
  · intro h0 h1
    rw [get_maturity_level_eq, if_neg (by rintro ⟨_, h⟩; linarith),
        if_neg (by rintro ⟨_, h⟩; linarith), if_pos ⟨h0, h1⟩]
  · intro h0 h1
    rw [get_maturity_level_eq, if_neg (by rintro ⟨_, h⟩; linarith),
        if_neg (by rintro ⟨_, h⟩; linarith),
        if_neg (by rintro ⟨_, h⟩; linarith)]
    split_ifs <;> rfl
  · intro h0
    rw [get_maturity_level_eq, if_neg (by rintro ⟨_, h⟩; linarith),
        if_neg (by rintro ⟨_, h⟩; linarith),
        if_neg (by rintro ⟨_, h⟩; linarith)]
    split_ifs <;> rfl
  · rw [get_maturity_level_eq]; norm_num
  · rw [get_maturity_level_eq]; norm_num
  · rw [get_maturity_level_eq]; norm_num
  · rw [get_maturity_level_eq]; norm_num

/-- Witness for C2: score 1 lies in [0, 1.5) and classifies as INITIAL. -/
theorem C2_maturity_level_intervals_witness :
    get_maturity_level 1 = "INITIAL" :=
  (C2_maturity_level_intervals 1).1 (by norm_num) (by norm_num)

/-- Counterexample for C3: with three level-1/1/2 answers in one topic of
one pillar (all weights 1), the code computes the overall score from the
ROUNDED pillar score 1.33, while the weighted mean over the unrounded
pillar score 4/3 claimed by the spec differs from it. -/
theorem C3_rounded_pillar_counterexample :
    calculate_overall_score (pillarScoresOf (groupResults C3rows)) =
      133/100 ∧
    spec_overall (groupResults C3rows) = 4/3 ∧
    calculate_overall_score (pillarScoresOf (groupResults C3rows)) ≠
      spec_overall (groupResults C3rows) := by
  have hg : groupResults C3rows =
      [{ id := "p1", name := "P1", weight := 1,
         topics := [{ id := "t1", name := "T1", weight := 1,
                      metrics :=
                        [⟨"m1", "M1", ((1 : ℤ) : ℚ), 1⟩,
                         ⟨"m2", "M2", ((1 : ℤ) : ℚ), 1⟩,
                         ⟨"m3", "M3", ((2 : ℤ) : ℚ), 1⟩] }] }] := rfl
  have hne3 : ([⟨"m1", "M1", (1 : ℚ), 1⟩, ⟨"m2", "M2", 1, 1⟩,
      ⟨"m3", "M3", 2, 1⟩] : List MetricEntry) ≠ [] := by simp
  have hts : calculate_topic_score
      [⟨"m1", "M1", (1 : ℚ), 1⟩, ⟨"m2", "M2", 1, 1⟩, ⟨"m3", "M3", 2, 1⟩] =
      4/3 := by
    simp only [calculate_topic_score, if_neg hne3]
    norm_num
  have hps : calculate_pillar_score [⟨4/3, 1⟩] = 4/3 := by
    norm_num [calculate_pillar_score]
  have hr : round2 (4/3) = 133/100 := by
    rw [round2_eq_of (4/3) 133 (by norm_num) (by norm_num)]
    norm_num
  have hentry : pillarScoresOf (groupResults C3rows) =
      [{ id := "p1", name := "P1", score := 133/100, weight := 1,
         topic_count := 1 }] := by
    rw [hg]
    simp [pillarScoresOf, hts, hps, hr]
  have hcode : calculate_overall_score
      (pillarScoresOf (groupResults C3rows)) = 133/100 := by
    rw [hentry]
    norm_num [calculate_overall_score]
  have hspec : spec_overall (groupResults C3rows) = 4/3 := by
    rw [hg]
    simp [spec_overall, spec_weighted_mean, unroundedPillarScore, hts, hps]
  refine ⟨hcode, hspec, ?_⟩
  rw [hcode, hspec]
  norm_num

/-- Claim C3 as amended: for a non-empty session the reported overall
score is the 2-decimal rounding of `calculate_overall_score` applied to
the pillar entries whose score fields are the ROUNDED pillar scores; the
classifier receives that same pre-display value; every pillar entry
carries the rounded unrounded-topic-based pillar score and its weight;
and with positive total weight the overall aggregation is the weighted
mean of those entry scores. -/
theorem C3_overall_from_rounded_pillars (sid : String)
    (results : List AssessmentResult) (total : ℕ) (h : results ≠ []) :
    (calculate_scores sid results total).overall_score =
      round2 (calculate_overall_score (pillarScoresOf (groupResults results))) ∧
    (calculate_scores sid results total).maturity_level =
      get_maturity_level
        (calculate_overall_score (pillarScoresOf (groupResults results))) ∧
    (∀ e ∈ pillarScoresOf (groupResults results), ∃ p ∈ groupResults results,
        e.score = round2 (unroundedPillarScore p) ∧ e.weight = p.weight) ∧
    (0 < ((pillarScoresOf (groupResults results)).map
        PillarScoreEntry.weight).sum →
      calculate_overall_score (pillarScoresOf (groupResults results)) =
        (((pillarScoresOf (groupResults results)).map
            (fun p => p.score * p.weight)).sum) /
          (((pillarScoresOf (groupResults results)).map
            PillarScoreEntry.weight).sum)) := by
  refine ⟨?_, ?_, ?_, ?_⟩
  · simp only [calculate_scores, if_neg h]
  · simp only [calculate_scores, if_neg h]
  · intro e he
    rcases List.mem_map.mp he with ⟨p, hp, rfl⟩
    exact ⟨p, hp, rfl, rfl⟩
  · intro hw
    have hne : pillarScoresOf (groupResults results) ≠ [] := by
      intro hnil
      rw [hnil] at hw
      simp at hw
    simp only [calculate_overall_score, if_neg hne, if_pos hw]

/-- Witness for C3 at the concrete three-answer session. -/
theorem C3_overall_from_rounded_pillars_witness :
    (calculate_scores "s" C3rows 3).overall_score =
      round2 (calculate_overall_score (pillarScoresOf (groupResults C3rows))) :=
  (C3_overall_from_rounded_pillars "s" C3rows 3 (by simp [C3rows])).1

/-- Counterexample for C4: at 20 active metrics and 5 answered metrics the
statistics dict of the report holds total 20, answered 5 and completion
percentage 25, but no remaining key at all. -/
theorem C4_no_remaining_field :
    (calculate_scores "s" C4rows 20).statistics.lookup "remaining" = none ∧
    (calculate_scores "s" C4rows 20).statistics.lookup "total_metrics" =
      some 20 ∧
    (calculate_scores "s" C4rows 20).statistics.lookup "answered_metrics" =
      some 5 ∧
    (calculate_scores "s" C4rows 20).statistics.lookup
      "completion_percentage" = some 25 := by
  have hne : C4rows ≠ [] := by simp [C4rows]
  have hs : (calculate_scores "s" C4rows 20).statistics =
      statisticsDict 20 5 := by
    simp only [calculate_scores, if_neg hne]
    rfl
  have hc : completionPercentageOf 20 5 = 25 := by
    norm_num [completionPercentageOf]
  have hr : round1 (completionPercentageOf 20 5) = 25 := by
    rw [hc, round1_eq_of 25 250 (by norm_num) (by norm_num)]
    norm_num
  rw [hs]
  refine ⟨rfl, ?_, ?_, ?_⟩
  · have h1 : (statisticsDict 20 5).lookup "total_metrics" =
        some ((20 : ℕ) : ℚ) := rfl
    rw [h1]
    norm_num
  · have h2 : (statisticsDict 20 5).lookup "answered_metrics" =
        some ((5 : ℕ) : ℚ) := rfl
    rw [h2]
    norm_num
  · have h3 : (statisticsDict 20 5).lookup "completion_percentage" =
        some (round1 (completionPercentageOf 20 5)) := rfl
    rw [h3, hr]

/-- Claim C4 as amended: the statistics dict carries total, answered and
the completion percentage (answered over total times 100, rounded to 1
decimal, 0 when total is 0) under its three keys, carries NO remaining
key, and is exactly the statistics field of the report for every
non-empty session. -/
theorem C4_statistics_fields (total answered : ℕ) :
    (statisticsDict total answered).lookup "total_metrics" =
      some (total : ℚ) ∧
    (statisticsDict total answered).lookup "answered_metrics" =
      some (answered : ℚ) ∧
    (statisticsDict total answered).lookup "completion_percentage" =
      some (round1
        (if 0 < total then (answered : ℚ) / (total : ℚ) * 100 else 0)) ∧
    (statisticsDict total answered).lookup "remaining" = none ∧
    (∀ (sid : String) (results : List AssessmentResult), results ≠ [] →
      (calculate_scores sid results total).statistics =
        statisticsDict total results.length) ∧
    (total = 0 →
      (statisticsDict total answered).lookup "completion_percentage" =
        some 0) := by
  refine ⟨rfl, rfl, rfl, rfl, ?_, ?_⟩
  · intro sid results h
    simp only [calculate_scores, if_neg h]
  · rintro rfl
    have hr : round1 (completionPercentageOf 0 answered) = 0 := by
      have h0 : completionPercentageOf 0 answered = 0 := rfl
      rw [h0, round1_eq_of 0 0 (by norm_num) (by norm_num)]
      norm_num
    show some (round1 (completionPercentageOf 0 answered)) = some 0
    rw [hr]

/-- Witness for C4: with zero active metrics the completion percentage in
the statistics dict is 0, not a fault. -/
theorem C4_statistics_fields_witness :
    (statisticsDict 0 7).lookup "completion_percentage" = some 0 :=
  (C4_statistics_fields 0 7).2.2.2.2.2 rfl

/-- Claim C5: the handler reads only the sessionId parameter; a
hypothetical-override parameter named answers has no effect on the
result, so the override semantics the claim describes is absent — the
report with an answers parameter equals the report without it for every
event and every persisted answer store. -/
theorem C5_answers_parameter_ignored :
    (∀ (params : List EventParam) (v : String)
        (db : String → List AssessmentResult) (total : ℕ),
      handlerCalculate (params ++ [⟨"answers", v⟩]) db total =
        handlerCalculate params db total) ∧
    (∀ (db : String → List AssessmentResult) (total : ℕ),
      handlerCalculate
          [⟨"sessionId", "s"⟩, ⟨"answers", "m1 to 5"⟩] db total =
        handlerCalculate [⟨"sessionId", "s"⟩] db total) := by
  constructor
  · intro params v db total
    unfold handlerCalculate
    rw [extractSessionId_append_answers]
  · intro db total
    rfl

/-- Claim C6: the topic aggregator returns 0 on the empty list, the plain
arithmetic mean of the metric scores otherwise, and its value depends
only on the score fields — the metric weights never influence it. -/
theorem C6_topic_unweighted_mean (ms : List MetricEntry) :
    calculate_topic_score [] = 0 ∧
    (ms ≠ [] →
      calculate_topic_score ms =
        ((ms.map MetricEntry.score).sum) / (ms.length : ℚ)) ∧
    (∀ ms2 : List MetricEntry,
      ms.map MetricEntry.score = ms2.map MetricEntry.score →
      calculate_topic_score ms = calculate_topic_score ms2) := by
  refine ⟨rfl, ?_, ?_⟩
  · intro h
    simp only [calculate_topic_score, if_neg h]
  · intro ms2 hmap
    have hlen : ms.length = ms2.length := by
      have h := congrArg List.length hmap
      simpa using h
    by_cases h : ms = []
    · have h2 : ms2 = [] := by
        have hm : ms2.map MetricEntry.score = [] := by rw [← hmap, h]; rfl
        simpa using hm
      rw [h, h2]
    · have h2 : ms2 ≠ [] := by
        intro hh
        apply h
        have hm : ms.map MetricEntry.score = [] := by rw [hmap, hh]; rfl
        simpa using hm
      simp only [calculate_topic_score, if_neg h, if_neg h2, hmap, hlen]

/-- Witness for C6: a concrete two-metric topic scores as the mean of its
metric scores even with unequal weights. -/
theorem C6_topic_unweighted_mean_witness :
    calculate_topic_score
        [⟨"m1", "M1", 1, 1⟩, ⟨"m2", "M2", 2, 7⟩] =
      ((([⟨"m1", "M1", 1, 1⟩, ⟨"m2", "M2", 2, 7⟩] :
          List MetricEntry).map MetricEntry.score).sum) /
        ((([⟨"m1", "M1", 1, 1⟩, ⟨"m2", "M2", 2, 7⟩] :
          List MetricEntry).length : ℚ)) :=
  (C6_topic_unweighted_mean
    [⟨"m1", "M1", 1, 1⟩, ⟨"m2", "M2", 2, 7⟩]).2.1 (by simp)

/-- Claim C7: the pillar aggregator never divides by zero — with positive
total weight it returns the weighted mean, on the empty list or zero
total weight it returns 0, and on the example topics (4, weight 2) and
(2, weight 1) it returns 10/3, whose 2-decimal rounding is 3.33. -/
theorem C7_pillar_guarded_weighted_mean (ts : List WeightedScore) :
    (0 < (ts.map WeightedScore.weight).sum →
      calculate_pillar_score ts =
        ((ts.map (fun t => t.score * t.weight)).sum) /
          ((ts.map WeightedScore.weight).sum)) ∧
    (ts = [] → calculate_pillar_score ts = 0) ∧
    ((ts.map WeightedScore.weight).sum = 0 → calculate_pillar_score ts = 0) ∧
    calculate_pillar_score [⟨4, 2⟩, ⟨2, 1⟩] = 10/3 ∧
    round2 (10/3) = 333/100 := by
  refine ⟨?_, ?_, ?_, ?_, ?_⟩
  · intro h
    have hne : ts ≠ [] := by
      rintro rfl
      simp at h
    simp only [calculate_pillar_score, if_neg hne, if_pos h]
  · rintro rfl
    rfl
  · intro h
    by_cases hne : ts = []
    · rw [hne]; rfl
    · simp [calculate_pillar_score, hne, h]
  · have hne : ([⟨4, 2⟩, ⟨2, 1⟩] : List WeightedScore) ≠ [] := by simp
    simp only [calculate_pillar_score, if_neg hne]
    norm_num
  · rw [round2_eq_of (10/3) 333 (by norm_num) (by norm_num)]
    norm_num

/-- Witness for C7 at the two example topics. -/
theorem C7_pillar_guarded_weighted_mean_witness :
    calculate_pillar_score [⟨4, 2⟩, ⟨2, 1⟩] =
      ((([⟨4, 2⟩, ⟨2, 1⟩] : List WeightedScore).map
          (fun t => t.score * t.weight)).sum) /
        ((([⟨4, 2⟩, ⟨2, 1⟩] : List WeightedScore).map
          WeightedScore.weight).sum) :=
  (C7_pillar_guarded_weighted_mean [⟨4, 2⟩, ⟨2, 1⟩]).1 (by norm_num)

/-- Claim C8: a session with no answered metrics short-circuits to the
fixed report with overall score 0, level INITIAL, empty pillar and topic
score lists and all-zero statistics, whatever the stored total metric
count is. -/
theorem C8_empty_session_short_circuit (sid : String) (total : ℕ) :
    calculate_scores sid [] total =
      { session_id := sid, overall_score := 0, maturity_level := "INITIAL",
        pillar_scores := [], topic_scores := [],
        statistics :=
          [("total_metrics", 0), ("answered_metrics", 0),
           ("completion_percentage", 0)] } := rfl

/-- Claim C9: when no stored active metric matches the requested id, the
lookup returns the structured not-found result echoing the requested id,
and the handler maps it to status 404 rather than crashing. -/
theorem C9_metric_not_found (db : List MetricRecord) (mid : String)
    (h : db.find? (fun m => m.id == mid && m.active) = none) :
    get_metric_details db mid =
      GetMetricResult.notFound ("Metric not found: " ++ mid) mid ∧
    metricDetailsStatus (get_metric_details db mid) = 404 := by
  have h1 : get_metric_details db mid =
      GetMetricResult.notFound ("Metric not found: " ++ mid) mid := by
    unfold get_metric_details
    rw [h]
  refine ⟨h1, ?_⟩
  rw [h1]
  rfl

/-- Witness for C9: the id m1 only matches an inactive record, so the
result is the not-found value carrying m1 and the status is 404. -/
theorem C9_metric_not_found_witness :
    get_metric_details C9db "m1" =
      GetMetricResult.notFound ("Metric not found: " ++ "m1") "m1" ∧
    metricDetailsStatus (get_metric_details C9db "m1") = 404 :=
  C9_metric_not_found C9db "m1" rfl

/-- Claim C10: every strictly negative score falls through all four
intervals of the level table and lands in the OPTIMIZING fallback. -/
theorem C10_negative_scores_optimizing (s : ℚ) (h : s < 0) :
    get_maturity_level s = "OPTIMIZING" := by
  rw [get_maturity_level_eq, if_neg (by rintro ⟨h0, _⟩; linarith),
      if_neg (by rintro ⟨h0, _⟩; linarith),
      if_neg (by rintro ⟨h0, _⟩; linarith),
      if_neg (by rintro ⟨h0, _⟩; linarith)]

/-- Witness for C10 at score -1. -/
theorem C10_negative_scores_optimizing_witness :
    get_maturity_level (-1) = "OPTIMIZING" :=
  C10_negative_scores_optimizing (-1) (by norm_num)
